import Mathlib

/-!
A shallow embedding of the direct-messaging subsystem of the chat
application: the chat service (`saveChat`, `createMessage`,
`addMessageToChat`, `getChat`, `getChatsByParticipants`,
`addParticipantToChat` from `chat.service.ts`), the chat controller routes
(`createChatRoute`, `addMessageToChatRoute`, `getChatsByUserRoute` from the
chat controller), and the client synchronization hook's `handleChatUpdate`
(from `useDirectMessage.ts`).

The Mongo-backed persistence layer is modelled as an explicit state `DB`
holding the user, chat and message collections; asynchronous service calls
become state-passing functions `input → DB → result × DB`.  A fallible
response `T | {error: string}` becomes `Except String T`.  Dates are
naturals (milliseconds); a possibly-absent date is `Option Nat`.  Document
ids are strings; the model generates the fresh id `"id" ++ toString counter`
where Mongo would generate an ObjectId (any injective generator of nonempty
strings is a faithful model: an ObjectId is an always-truthy object, and its
string form is nonempty).
-/

namespace ChatApp

/-- A message document: `{msg, msgFrom, msgDateTime, type}` from the
`Message` type.  `msgDateTime : Option Nat` models a possibly-absent date
(JS `undefined` is `none`). -/
structure Message where
  msg : String
  msgFrom : String
  msgDateTime : Option Nat
  type : String
deriving Repr, DecidableEq

/-- A chat document as the chat schema stores it: usernames of the
participants and the ids of the referenced messages. -/
structure ChatDoc where
  participants : List String
  messages : List String
deriving Repr, DecidableEq

/-- The persistence layer: the `User`, `Chat` and `Message` collections,
a counter for fresh ids, and a fault flag making collection-wide `find`
queries throw (modelling an underlying storage failure). -/
structure DB where
  users : List String
  chats : List (String × ChatDoc)
  msgs : List (String × Message)
  nextId : Nat
  findFails : Bool
deriving Repr, DecidableEq

/-- A fresh document id, as `Model.create` assigns one. -/
def freshId (db : DB) : String := "id" ++ toString db.nextId

/-- `UserModel.findById`: a user exists iff the username is in the `users`
collection. -/
def userFindById (db : DB) (id : String) : Option String :=
  if db.users.contains id then some id else none

/-- `MessageModel.create`: stores the document under a fresh id. -/
def messageCreate (db : DB) (m : Message) : String × DB :=
  (freshId db,
   { db with msgs := db.msgs ++ [(freshId db, m)], nextId := db.nextId + 1 })

/-- `ChatModel.create`: stores the document under a fresh id. -/
def chatCreate (db : DB) (c : ChatDoc) : String × DB :=
  (freshId db,
   { db with chats := db.chats ++ [(freshId db, c)], nextId := db.nextId + 1 })

/-- Replace the first entry stored under key `k` by its image under `f`
(Mongo ids are unique, so `findByIdAndUpdate` touches one document). -/
def updateFirst (k : String) (f : ChatDoc → ChatDoc) :
    List (String × ChatDoc) → List (String × ChatDoc)
  | [] => []
  | (k', c) :: rest =>
    if k' == k then (k', f c) :: rest else (k', c) :: updateFirst k f rest

/-- `ChatModel.findById`. -/
def chatFindById (db : DB) (k : String) : Option ChatDoc :=
  (db.chats.find? (fun e => e.1 == k)).map (fun e => e.2)

/-- `ChatModel.findByIdAndUpdate(k, update, {new: true})`: `none` when no
chat has id `k`, otherwise the updated document together with the updated
state. -/
def chatFindByIdAndUpdate (db : DB) (k : String) (f : ChatDoc → ChatDoc) :
    Option (ChatDoc × DB) :=
  match chatFindById db k with
  | none => none
  | some c => some (f c, { db with chats := updateFirst k f db.chats })

/-- `ChatModel.find({participants: {$all: p}})`: every chat whose
participant list contains all of `p`.  Mongo's `$all` with an empty array
matches no documents, so at `p = []` the query returns nothing.  Throws
when the storage layer fails. -/
def chatFindAll (db : DB) (p : List String) :
    Except String (List (String × ChatDoc)) :=
  if db.findFails then Except.error "Database error"
  else if p.isEmpty then Except.ok []
  else Except.ok
    (db.chats.filter (fun e => p.all (fun u => e.2.participants.contains u)))

/-- `ChatResponse = Chat | {error: string}`; a returned chat carries its id. -/
abbrev ChatResponse := Except String (String × ChatDoc)

/-- `MessageResponse = Message | {error: string}`. -/
abbrev MessageResponse := Except String (String × Message)

/-- `CreateChatPayload`: the body of a `createChat` request. -/
structure CreateChatPayload where
  participants : List String
  messages : List Message
deriving Repr, DecidableEq

/-- The participant-validation loop at the top of `saveChat`: the first
participant whose `UserModel.findById` lookup comes back empty, if any. -/
def findMissingParticipant (users : List String) : List String → Option String
  | [] => none
  | p :: rest =>
    if users.contains p then findMissingParticipant users rest else some p

/-- The message-creation loop of `saveChat`: each payload message is stored
with `msgDateTime: message.msgDateTime || new Date()`; returns the ids in
order. -/
def saveMessages (now : Nat) (db : DB) : List Message → List String × DB
  | [] => ([], db)
  | m :: rest =>
    let mInDB := { m with msgDateTime := some (m.msgDateTime.getD now) }
    let (mid, db1) := messageCreate db mInDB
    let (ids, db2) := saveMessages now db1 rest
    (mid :: ids, db2)

/-- `saveChat` from `chat.service.ts`: validates every participant, then
persists the initial messages, then the chat shell referencing them. -/
def saveChat (now : Nat) (chatPayload : CreateChatPayload) (db : DB) :
    ChatResponse × DB :=
  match findMissingParticipant db.users chatPayload.participants with
  | some p => (Except.error ("User not found: " ++ p), db)
  | none =>
    let (messageIds, db1) := saveMessages now db chatPayload.messages
    let chatData : ChatDoc :=
      { participants := chatPayload.participants, messages := messageIds }
    let (cid, db2) := chatCreate db1 chatData
    (Except.ok (cid, chatData), db2)

/-- `createMessage` from `chat.service.ts`: `MessageModel.create(messageData)`
and nothing else — the document is persisted exactly as passed in. -/
def createMessage (messageData : Message) (db : DB) : MessageResponse × DB :=
  let (mid, db1) := messageCreate db messageData
  (Except.ok (mid, messageData), db1)

/-- `addMessageToChat` from `chat.service.ts`:
`findByIdAndUpdate(chatId, {$push: {messages: messageId}}, {new: true})`. -/
def addMessageToChat (chatId : String) (messageId : String) (db : DB) :
    ChatResponse × DB :=
  match chatFindByIdAndUpdate db chatId
      (fun c => { c with messages := c.messages ++ [messageId] }) with
  | none => (Except.error "Chat not found", db)
  | some (c, db1) => (Except.ok (chatId, c), db1)

/-- `getChat` from `chat.service.ts` (read-only). -/
def getChat (chatId : String) (db : DB) : ChatResponse :=
  match chatFindById db chatId with
  | none => Except.error "Chat not found"
  | some c => Except.ok (chatId, c)

/-- `getChatsByParticipants` from `chat.service.ts`: the `$all` query, with
any thrown storage error caught and turned into `[]` (the `if (!chats)`
guard in the source is unreachable — `find` resolves to an array). -/
def getChatsByParticipants (p : List String) (db : DB) :
    List (String × ChatDoc) :=
  match chatFindAll db p with
  | Except.error _ => []
  | Except.ok chats => chats

/-- `addParticipantToChat` from `chat.service.ts`: validates the user, then
`findByIdAndUpdate(chatId, {$addToSet: {participants: userId}}, {new: true})`
— `$addToSet` appends the value only when it is not already present. -/
def addParticipantToChat (chatId : String) (userId : String) (db : DB) :
    ChatResponse × DB :=
  match userFindById db userId with
  | none => (Except.error ("User not found: " ++ userId), db)
  | some _ =>
    match chatFindByIdAndUpdate db chatId
        (fun c =>
          if c.participants.contains userId then c
          else { c with participants := c.participants ++ [userId] }) with
    | none => (Except.error "Failed to add participant to chat", db)
    | some (c, db1) => (Except.ok (chatId, c), db1)

/-- A chat after enrichment: message ids replaced by the full message
documents (each keeping its id). -/
structure EnrichedChat where
  _id : String
  participants : List String
  messages : List (String × Message)
deriving Repr, DecidableEq

/-- Resolve each referenced message id to its stored document; `none` as
soon as one reference dangles. -/
def resolveMessages (db : DB) : List String → Option (List (String × Message))
  | [] => some []
  | mid :: rest =>
    match (db.msgs.find? (fun e => e.1 == mid)).map (fun e => e.2) with
    | none => none
    | some m =>
      match resolveMessages db rest with
      | none => none
      | some ms => some ((mid, m) :: ms)

/-- Modelled from the spec: `populateDocument` lives in `database.util`,
which is not among the provided source files.  Spec §4.2: "`populate(entityId,
kind) -> EnrichedEntity | Error(NotFound)`.  For a chat, replaces
`messageIds` with full Message objects and resolves participant identifiers
...  Read-only, side-effect-free." -/
def populateDocument (db : DB) (chatId : String) : Except String EnrichedChat :=
  match chatFindById db chatId with
  | none => Except.error "Chat not found"
  | some c =>
    match resolveMessages db c.messages with
    | none => Except.error "Message not found"
    | some ms =>
      Except.ok { _id := chatId, participants := c.participants, messages := ms }

/-- What an HTTP route sends back: an enriched chat, a list of enriched
chats, a JSON error object (`res.send` of a `{error}` value), or plain
text. -/
inductive ResponseBody where
  | chat (c : EnrichedChat)
  | chats (cs : List EnrichedChat)
  | errorObj (e : String)
  | text (s : String)
deriving Repr, DecidableEq

/-- `res.status(n).send(body)`. -/
structure HttpResponse where
  status : Nat
  body : ResponseBody
deriving Repr, DecidableEq

/-- One `socket.to(topic).emit('chatUpdate', {chat, type: eventType})`. -/
structure Emit where
  topic : String
  eventType : String
deriving Repr, DecidableEq

/-- `res.status(200).send(enrichedChat)` where `enrichedChat` may itself be
an `{error}` object (the unchecked send in `addMessageToChatRoute`). -/
def sendBody : Except String EnrichedChat → ResponseBody
  | Except.ok c => ResponseBody.chat c
  | Except.error e => ResponseBody.errorObj e

/-- `isCreateChatRequestValid`: with a well-typed body the two `Array.isArray`
checks hold, so validity is exactly a nonempty participant list. -/
def isCreateChatRequestValid (body : CreateChatPayload) : Bool :=
  !body.participants.isEmpty

/-- `createChatRoute` from the chat controller: validate, `saveChat`,
enrich, emit one `created` event per participant to that participant's
personal topic, respond 200; any service or enrichment error becomes 500. -/
def createChatRoute (now : Nat) (body : CreateChatPayload) (db : DB) :
    HttpResponse × List Emit × DB :=
  if !isCreateChatRequestValid body then
    ({ status := 400, body := ResponseBody.text "Invalid body" }, [], db)
  else
    match saveChat now body db with
    | (Except.error e, db1) =>
      ({ status := 500,
         body := ResponseBody.text ("Error when creating chat: " ++ e) }, [], db1)
    | (Except.ok (cid, result), db1) =>
      match populateDocument db1 cid with
      | Except.error e =>
        ({ status := 500,
           body := ResponseBody.text ("Error when creating chat: " ++ e) }, [], db1)
      | Except.ok enrichedResult =>
        ({ status := 200, body := ResponseBody.chat enrichedResult },
         result.participants.map (fun participant =>
           { topic := participant, eventType := "created" }),
         db1)

/-- The body of a `POST /:chatId/addMessage` request. -/
structure AddMessageBody where
  msg : String
  msgFrom : String
  msgDateTime : Option Nat
deriving Repr, DecidableEq

/-- `isAddMessageRequestValid`: `!msg || !msgFrom || !chatId` — the falsy
string is the empty one. -/
def isAddMessageRequestValid (chatId : String) (body : AddMessageBody) : Bool :=
  !(body.msg == "" || body.msgFrom == "" || chatId == "")

/-- The message `addMessageToChatRoute` builds before calling the service:
`{...req.body, type: 'direct', msgDateTime: req.body.msgDateTime || new Date()}`. -/
def routeMessage (now : Nat) (body : AddMessageBody) : Message :=
  { msg := body.msg, msgFrom := body.msgFrom,
    msgDateTime := some (body.msgDateTime.getD now), type := "direct" }

/-- `addMessageToChatRoute` from the chat controller.  Note: the result of
`populateDocument` is sent with status 200 and emitted without an error
check — unlike every sibling route.  The `!messageResult._id` and
`!chatResult._id` guards test string falsiness, i.e. emptiness. -/
def addMessageToChatRoute (now : Nat) (chatId : String) (body : AddMessageBody)
    (db : DB) : HttpResponse × List Emit × DB :=
  if !isAddMessageRequestValid chatId body then
    ({ status := 400, body := ResponseBody.text "Invalid body" }, [], db)
  else
    match createMessage (routeMessage now body) db with
    | (Except.error e, db1) =>
      ({ status := 500,
         body := ResponseBody.text ("Error when adding message to chat: " ++ e) },
       [], db1)
    | (Except.ok (mid, _), db1) =>
      if mid == "" then
        ({ status := 500,
           body := ResponseBody.text
             "Error when adding message to chat: Failed to add message to chat" },
         [], db1)
      else
        match addMessageToChat chatId mid db1 with
        | (Except.error e, db2) =>
          ({ status := 500,
             body := ResponseBody.text ("Error when adding message to chat: " ++ e) },
           [], db2)
        | (Except.ok (cid, _), db2) =>
          if cid == "" then
            ({ status := 500,
               body := ResponseBody.text
                 "Error when adding message to chat: Invalid chat found" },
             [], db2)
          else
            ({ status := 200, body := sendBody (populateDocument db2 cid) },
             [{ topic := chatId, eventType := "newMessage" }],
             db2)

/-- The enrichment loop of `getChatsByUserRoute`: each chat with a falsy id
throws `Invalid chat found`, each enrichment error throws
`Failed populating chats`. -/
def enrichChats (db : DB) :
    List (String × ChatDoc) → Except String (List EnrichedChat)
  | [] => Except.ok []
  | (cid, _) :: rest =>
    if cid == "" then Except.error "Invalid chat found"
    else
      match populateDocument db cid with
      | Except.error _ => Except.error "Failed populating chats"
      | Except.ok ec =>
        match enrichChats db rest with
        | Except.error e => Except.error e
        | Except.ok ecs => Except.ok (ec :: ecs)

/-- `getChatsByUserRoute` from the chat controller: a falsy (empty or
missing) username is rejected with 400 before any storage access; otherwise
the participant query runs, each result is enriched, and any thrown error
becomes 500.  Read-only: no emits, no state change. -/
def getChatsByUserRoute (username : String) (db : DB) : HttpResponse :=
  if username == "" then
    { status := 400, body := ResponseBody.text "Invalid body" }
  else
    match enrichChats db (getChatsByParticipants [username] db) with
    | Except.error e =>
      { status := 500, body := ResponseBody.text ("Error retrieving chat: " ++ e) }
    | Except.ok ecs => { status := 200, body := ResponseBody.chats ecs }

/-- The client hook's local state: the known chats and the selected chat
(`useDirectMessage.ts`). -/
structure ClientState where
  chats : List EnrichedChat
  selectedChat : Option EnrichedChat
deriving Repr, DecidableEq

/-- A `chatUpdate` socket event payload. -/
structure ChatUpdatePayload where
  chat : EnrichedChat
  type : String
deriving Repr, DecidableEq

/-- `handleChatUpdate` from `useDirectMessage.ts`.  (`participants.flat()`
over a list of usernames is the identity, so it is elided.)  `created`
appends the chat when the current user is a participant and no chat with
the same id is known; `newMessage` replaces the matching chat and, when it
is selected, the selection; any other type throws. -/
def handleChatUpdate (username : String) (chatUpdate : ChatUpdatePayload)
    (s : ClientState) : Except String ClientState :=
  if chatUpdate.type == "created" then
    if chatUpdate.chat.participants.contains username then
      let newChats :=
        if s.chats.any (fun chat => chat._id == chatUpdate.chat._id) then s.chats
        else s.chats ++ [chatUpdate.chat]
      Except.ok { s with chats := newChats }
    else Except.ok s
  else if chatUpdate.type == "newMessage" then
    Except.ok
      { selectedChat :=
          match s.selectedChat with
          | some sc =>
            if sc._id == chatUpdate.chat._id then some chatUpdate.chat else some sc
          | none => none,
        chats := s.chats.map (fun chat =>
          if chat._id == chatUpdate.chat._id then chatUpdate.chat else chat) }
  else
    Except.error ("Invalid chat update type: " ++ chatUpdate.type)

/-! ## Concrete fixtures used by the witnesses -/

/-- An empty store. -/
def emptyDB : DB :=
  { users := [], chats := [], msgs := [], nextId := 0, findFails := false }

/-- A chat between alice and bob referencing one message. -/
def chatC0 : ChatDoc := { participants := ["alice", "bob"], messages := ["m9"] }

/-- A consistent store: the referenced message exists. -/
def dbA : DB :=
  { users := ["alice", "bob"],
    chats := [("c0", chatC0)],
    msgs := [("m9", { msg := "yo", msgFrom := "bob", msgDateTime := some 3,
                      type := "direct" })],
    nextId := 0, findFails := false }

/-- A store where chat `c0` references a message that is not stored, so
enriching `c0` fails. -/
def dbDangling : DB :=
  { users := ["alice", "bob"],
    chats := [("c0", chatC0)],
    msgs := [], nextId := 0, findFails := false }

/-! ## Helper lemmas -/

/-- If some participant is missing from the user collection, the validation
loop reports a missing participant (the first one). -/
theorem findMissingParticipant_some (users : List String) :
    ∀ (l : List String) (p : String), p ∈ l → users.contains p = false →
      ∃ q, q ∈ l ∧ users.contains q = false ∧
        findMissingParticipant users l = some q := by
  intro l
  induction l with
  | nil => intro p hp; cases hp
  | cons a rest ih =>
    intro p hp hnp
    by_cases ha : users.contains a = true
    · have hpr : p ∈ rest := by
        rcases List.mem_cons.mp hp with rfl | h
        · rw [ha] at hnp; cases hnp
        · exact h
      obtain ⟨q, hq, hnq, hfind⟩ := ih p hpr hnp
      refine ⟨q, List.mem_cons_of_mem a hq, hnq, ?_⟩
      simp only [findMissingParticipant, ha, if_true]
      exact hfind
    · have ha' : users.contains a = false := Bool.eq_false_iff.mpr ha
      refine ⟨a, List.mem_cons_self a rest, ha', ?_⟩
      simp only [findMissingParticipant, ha']
      simp

/-- `updateFirst` is the identity when the update fixes the stored value it
hits. -/
theorem updateFirst_of_fixed (k : String) (f : ChatDoc → ChatDoc) :
    ∀ (l : List (String × ChatDoc)) (c : ChatDoc),
      l.find? (fun e => e.1 == k) = some (k, c) → f c = c →
      updateFirst k f l = l := by
  intro l
  induction l with
  | nil => intro c h _; simp [List.find?] at h
  | cons hd tl ih =>
    intro c h hfc
    obtain ⟨k', c'⟩ := hd
    by_cases hk : (k' == k) = true
    · have hfind : List.find? (fun e => e.1 == k) ((k', c') :: tl) = some (k', c') :=
        List.find?_cons_of_pos tl hk
      rw [hfind] at h
      simp only [Option.some.injEq, Prod.mk.injEq] at h
      obtain ⟨hk2, hc2⟩ := h
      subst hk2; subst hc2
      simp [updateFirst, hfc]
    · have hfind : List.find? (fun e => e.1 == k) ((k', c') :: tl) =
          List.find? (fun e => e.1 == k) tl :=
        List.find?_cons_of_neg tl hk
      rw [hfind] at h
      simp [updateFirst, hk, ih c h hfc]

/-! ## The claims -/

/-- C1: `saveChat` validates every participant before persisting anything:
whenever some participant is missing from the user collection, the call
returns a `User not found` error naming a missing participant, and the
store is returned unchanged — no message and no chat was created. -/
theorem saveChat_missing_participant_atomic (now : Nat)
    (payload : CreateChatPayload) (db : DB) (p : String)
    (hp : p ∈ payload.participants) (hnp : db.users.contains p = false) :
    ∃ q, q ∈ payload.participants ∧ db.users.contains q = false ∧
      saveChat now payload db = (Except.error ("User not found: " ++ q), db) := by
  obtain ⟨q, hq, hnq, hfind⟩ :=
    findMissingParticipant_some db.users payload.participants p hp hnp
  exact ⟨q, hq, hnq, by simp [saveChat, hfind]⟩

/-- Witness for C1 at a concrete input: creating a chat whose one
participant does not exist fails with `User not found` and leaves the empty
store empty. -/
theorem saveChat_missing_participant_atomic_wit :
    ∃ q, q ∈ (CreateChatPayload.mk ["ghost"] []).participants ∧
      emptyDB.users.contains q = false ∧
      saveChat 0 (CreateChatPayload.mk ["ghost"] []) emptyDB =
        (Except.error ("User not found: " ++ q), emptyDB) :=
  saveChat_missing_participant_atomic 0 (CreateChatPayload.mk ["ghost"] [])
    emptyDB "ghost" (by decide) (by decide)

/-- C2: `addParticipantToChat` is idempotent — when the user exists and is
already a participant of the stored chat, the call succeeds with the chat
unchanged and leaves the whole store unchanged. -/
theorem addParticipantToChat_idempotent (chatId userId : String) (db : DB)
    (c : ChatDoc) (hu : db.users.contains userId = true)
    (hc : db.chats.find? (fun e => e.1 == chatId) = some (chatId, c))
    (hp : c.participants.contains userId = true) :
    addParticipantToChat chatId userId db = (Except.ok (chatId, c), db) := by
  have hupd := updateFirst_of_fixed chatId
    (fun d =>
      if d.participants.contains userId then d
      else { d with participants := d.participants ++ [userId] })
    db.chats c hc (by simp only [hp, if_true])
  simp only [addParticipantToChat, userFindById, hu, if_true,
    chatFindByIdAndUpdate, chatFindById, hc, Option.map_some', hupd, hp]

/-- Witness for C2 at a concrete input: re-adding alice to the chat she is
already in succeeds and changes nothing. -/
theorem addParticipantToChat_idempotent_wit :
    addParticipantToChat "c0" "alice" dbA = (Except.ok ("c0", chatC0), dbA) :=
  addParticipantToChat_idempotent "c0" "alice" dbA chatC0 (by decide)
    (by decide) (by decide)

/-- C4 counterexample: at the empty username list the claimed
characterisation fails — the stored chat's participant set is a superset of
the empty set, yet the query returns nothing, because Mongo's `$all` with
an empty array matches no documents. -/
theorem getChatsByParticipants_empty_cex :
    ¬(("c0", chatC0) ∈ getChatsByParticipants [] dbA ↔
      ("c0", chatC0) ∈ dbA.chats ∧
        ∀ u ∈ ([] : List String), u ∈ chatC0.participants) := by
  decide

/-- C4 (amended): for every nonempty username list,
`getChatsByParticipants` selects exactly the stored chats whose participant
list contains every queried username; for the empty list it returns the
empty sequence (Mongo `$all` with an empty array matches no documents); a
storage failure also yields the empty list — the function's type admits no
error result. -/
theorem getChatsByParticipants_superset_query (p : List String) (db : DB)
    (e : String × ChatDoc) :
    (e ∈ getChatsByParticipants p db ↔
      p ≠ [] ∧ db.findFails = false ∧ e ∈ db.chats ∧
        ∀ u ∈ p, u ∈ e.2.participants) ∧
    (db.findFails = true → getChatsByParticipants p db = []) ∧
    getChatsByParticipants [] db = [] := by
  unfold getChatsByParticipants chatFindAll
  by_cases h : db.findFails
  · simp [h]
  · by_cases hp : p = []
    · subst hp; simp [h]
    · simp [h, hp, List.mem_filter, List.all_eq_true]

/-- A successful `saveChat` returns a chat whose participants are exactly
the payload's. -/
theorem saveChat_ok_participants {now : Nat} {payload : CreateChatPayload}
    {db : DB} {cid : String} {c : ChatDoc} {db1 : DB}
    (h : saveChat now payload db = (Except.ok (cid, c), db1)) :
    c.participants = payload.participants := by
  unfold saveChat at h
  split at h
  · simp at h
  · simp only [Prod.mk.injEq, Except.ok.injEq] at h
    rw [← h.1.2]

/-- A fresh id is never the falsy (empty) string. -/
theorem freshId_ne_empty (db : DB) : (freshId db == "") = false := by
  rw [beq_eq_false_iff_ne]
  intro h
  have hlen := congrArg String.length h
  rw [freshId] at hlen
  rw [String.length_append] at hlen
  simp at hlen
  exact absurd hlen.1 (by decide)

/-- `createChatRoute` publishes exactly one `created` event per participant,
each to that participant's personal topic, iff it responds 200; otherwise it
publishes nothing. -/
theorem createChatRoute_emits (now : Nat) (body : CreateChatPayload) (db : DB) :
    ((createChatRoute now body db).1.status = 200 →
      (createChatRoute now body db).2.1 =
        body.participants.map (fun participant =>
          { topic := participant, eventType := "created" })) ∧
    ((createChatRoute now body db).1.status ≠ 200 →
      (createChatRoute now body db).2.1 = []) := by
  unfold createChatRoute
  split
  · simp
  · split
    · simp
    · rename_i cid result db1 h
      split
      · simp
      · have hpart := saveChat_ok_participants h
        simp [hpart]

/-- `addMessageToChatRoute` publishes exactly one `newMessage` event to the
chat-id topic iff it responds 200 (i.e. iff message creation and the chat
update both succeeded); otherwise it publishes nothing. -/
theorem addMessageRoute_emits (now : Nat) (chatId : String)
    (body : AddMessageBody) (db : DB) :
    ((addMessageToChatRoute now chatId body db).1.status = 200 →
      (addMessageToChatRoute now chatId body db).2.1 =
        [{ topic := chatId, eventType := "newMessage" }]) ∧
    ((addMessageToChatRoute now chatId body db).1.status ≠ 200 →
      (addMessageToChatRoute now chatId body db).2.1 = []) := by
  unfold addMessageToChatRoute
  split
  · simp
  · split
    · simp
    · split
      · simp
      · split
        · simp
        · split
          · simp
          · simp

/-- C3: on successful chat creation the controller publishes one `created`
`chatUpdate` event per participant, each to that participant's personal
topic and none to any other topic; on successful message addition it
publishes a single `newMessage` event to the chat-id topic only; failing
routes publish nothing. -/
theorem chatUpdate_event_topics (now : Nat) (body : CreateChatPayload)
    (chatId : String) (amBody : AddMessageBody) (db : DB) :
    ((createChatRoute now body db).1.status = 200 →
      (createChatRoute now body db).2.1 =
        body.participants.map (fun participant =>
          { topic := participant, eventType := "created" })) ∧
    ((createChatRoute now body db).1.status ≠ 200 →
      (createChatRoute now body db).2.1 = []) ∧
    ((addMessageToChatRoute now chatId amBody db).1.status = 200 →
      (addMessageToChatRoute now chatId amBody db).2.1 =
        [{ topic := chatId, eventType := "newMessage" }]) ∧
    ((addMessageToChatRoute now chatId amBody db).1.status ≠ 200 →
      (addMessageToChatRoute now chatId amBody db).2.1 = []) :=
  ⟨(createChatRoute_emits now body db).1, (createChatRoute_emits now body db).2,
   (addMessageRoute_emits now chatId amBody db).1,
   (addMessageRoute_emits now chatId amBody db).2⟩

/-- A message whose kind is not `direct` and whose date is absent, used to
show `createMessage` performs no defaulting of its own. -/
def strayMessage : Message :=
  { msg := "hi", msgFrom := "alice", msgDateTime := none, type := "global" }

/-- C5 counterexample: the service function `createMessage` persists its
input verbatim — a message with kind `global` and no timestamp is stored as
such, with the kind not defaulted to `direct` and the timestamp still
absent. -/
theorem createMessage_no_defaulting_cex :
    (createMessage strayMessage emptyDB).2.msgs.map Prod.snd = [strayMessage] ∧
    strayMessage.type ≠ "direct" ∧ strayMessage.msgDateTime = none := by
  decide

/-- `addMessageToChat` never touches the message collection. -/
theorem addMessageToChat_msgs (chatId messageId : String) (db : DB) :
    (addMessageToChat chatId messageId db).2.msgs = db.msgs := by
  unfold addMessageToChat chatFindByIdAndUpdate
  cases hfind : chatFindById db chatId with
  | none => simp [hfind]
  | some c => simp [hfind]

/-- On any valid request, `addMessageToChatRoute` persists exactly the
message it built (`routeMessage`) under a fresh id, whatever else
happens. -/
theorem addMessageToChatRoute_msgs (now : Nat) (chatId : String)
    (body : AddMessageBody) (db : DB)
    (hv : isAddMessageRequestValid chatId body = true) :
    (addMessageToChatRoute now chatId body db).2.2.msgs =
      db.msgs ++ [(freshId db, routeMessage now body)] := by
  unfold addMessageToChatRoute
  simp only [hv, Bool.not_true, Bool.false_eq_true, if_false, createMessage,
    messageCreate, freshId_ne_empty]
  have hmsgs := addMessageToChat_msgs chatId (freshId db)
    { db with msgs := db.msgs ++ [(freshId db, routeMessage now body)],
              nextId := db.nextId + 1 }
  rcases haddm : addMessageToChat chatId (freshId db)
      { db with msgs := db.msgs ++ [(freshId db, routeMessage now body)],
                nextId := db.nextId + 1 } with ⟨r, db2⟩
  rw [haddm] at hmsgs
  cases r with
  | error e => simpa [haddm] using hmsgs
  | ok val =>
    obtain ⟨cid, c⟩ := val
    by_cases hcid : (cid == "") = true <;> simp [haddm, hcid] <;> exact hmsgs

/-- C5 (amended): `createMessage` persists its input verbatim under a fresh
id, performing no defaulting itself; the defaulting of the kind to `direct`
and of the timestamp to the current time when absent is performed by the
caller (`addMessageToChatRoute`) before `createMessage` is invoked, so on
every valid request the persisted message is the request body with exactly
those two fields filled in. -/
theorem createMessage_verbatim_route_defaults (now : Nat) (chatId : String)
    (body : AddMessageBody) (db : DB) (m : Message)
    (hv : isAddMessageRequestValid chatId body = true) :
    createMessage m db =
      (Except.ok (freshId db, m),
       { db with msgs := db.msgs ++ [(freshId db, m)],
                 nextId := db.nextId + 1 }) ∧
    (addMessageToChatRoute now chatId body db).2.2.msgs =
      db.msgs ++ [(freshId db,
        { msg := body.msg, msgFrom := body.msgFrom,
          msgDateTime := some (body.msgDateTime.getD now), type := "direct" })] := by
  refine ⟨rfl, ?_⟩
  simpa [routeMessage] using addMessageToChatRoute_msgs now chatId body db hv

/-- Witness for C5's amended statement at a concrete input. -/
theorem createMessage_verbatim_route_defaults_wit :
    createMessage strayMessage dbA =
      (Except.ok (freshId dbA, strayMessage),
       { dbA with msgs := dbA.msgs ++ [(freshId dbA, strayMessage)],
                  nextId := dbA.nextId + 1 }) ∧
    (addMessageToChatRoute 5 "c0" (AddMessageBody.mk "hi" "alice" none) dbA).2.2.msgs =
      dbA.msgs ++ [(freshId dbA,
        { msg := "hi", msgFrom := "alice", msgDateTime := some 5,
          type := "direct" })] :=
  createMessage_verbatim_route_defaults 5 "c0" (AddMessageBody.mk "hi" "alice" none)
    dbA strayMessage (by decide)

/-- Looking a key up after `updateFirst` finds the updated document. -/
theorem find?_updateFirst (k : String) (f : ChatDoc → ChatDoc) :
    ∀ l : List (String × ChatDoc),
      (updateFirst k f l).find? (fun e => e.1 == k) =
        (l.find? (fun e => e.1 == k)).map (fun e => (e.1, f e.2)) := by
  intro l
  induction l with
  | nil => rfl
  | cons hd tl ih =>
    obtain ⟨k', c'⟩ := hd
    by_cases hk : (k' == k) = true
    · have h1 : updateFirst k f ((k', c') :: tl) = (k', f c') :: tl := by
        simp [updateFirst, hk]
      have h2 : List.find? (fun e => e.1 == k) ((k', f c') :: tl) = some (k', f c') :=
        List.find?_cons_of_pos tl hk
      have h3 : List.find? (fun e => e.1 == k) ((k', c') :: tl) = some (k', c') :=
        List.find?_cons_of_pos tl hk
      rw [h1, h2, h3, Option.map_some']
    · have h1 : updateFirst k f ((k', c') :: tl) = (k', c') :: updateFirst k f tl := by
        simp [updateFirst, hk]
      have h2 : List.find? (fun e => e.1 == k) ((k', c') :: updateFirst k f tl) =
          List.find? (fun e => e.1 == k) (updateFirst k f tl) :=
        List.find?_cons_of_neg _ hk
      have h3 : List.find? (fun e => e.1 == k) ((k', c') :: tl) =
          List.find? (fun e => e.1 == k) tl :=
        List.find?_cons_of_neg tl hk
      rw [h1, h2, h3, ih]

/-- C6: `addMessageToChat` on a chat id with no stored chat returns the
`Chat not found` error and leaves the store unchanged; on a stored chat it
succeeds, and both the returned and the stored chat carry the old message
list with the new id appended at the end — nothing removed or reordered. -/
theorem addMessageToChat_append_or_missing (chatId messageId : String)
    (db : DB) (c : ChatDoc) :
    (db.chats.find? (fun e => e.1 == chatId) = none →
      addMessageToChat chatId messageId db = (Except.error "Chat not found", db)) ∧
    (db.chats.find? (fun e => e.1 == chatId) = some (chatId, c) →
      (addMessageToChat chatId messageId db).1 =
        Except.ok (chatId, { c with messages := c.messages ++ [messageId] }) ∧
      chatFindById (addMessageToChat chatId messageId db).2 chatId =
        some { c with messages := c.messages ++ [messageId] }) := by
  constructor
  · intro h
    simp [addMessageToChat, chatFindByIdAndUpdate, chatFindById, h]
  · intro h
    constructor
    · simp [addMessageToChat, chatFindByIdAndUpdate, chatFindById, h]
    · simp only [addMessageToChat, chatFindByIdAndUpdate, chatFindById, h,
        Option.map_some']
      rw [find?_updateFirst, h]
      rfl

/-- C7 (code bug): with chat `c0` stored but its referenced message
missing, a valid `addMessage` request succeeds at the service layer,
enrichment fails, and the route nevertheless responds with status 200
carrying the enrichment error object as the body — the spec requires 500 on
any enrichment failure, and the sibling routes do check this. -/
theorem addMessageRoute_enrichment_error_200 :
    (addMessageToChatRoute 5 "c0"
        { msg := "hi", msgFrom := "alice", msgDateTime := none } dbDangling).1 =
      { status := 200, body := ResponseBody.errorObj "Message not found" } := by
  decide

/-- An enriched chat used by the client-hook witnesses. -/
def chatEC : EnrichedChat :=
  { _id := "c1", participants := ["alice", "bob"], messages := [] }

/-- A client that knows no chats yet. -/
def emptyClient : ClientState := { chats := [], selectedChat := none }

/-- C8: a `chatUpdate` event whose type is neither `created` nor
`newMessage` makes the client handler throw rather than silently ignore the
event. -/
theorem handleChatUpdate_invalid_type_throws (username : String)
    (cu : ChatUpdatePayload) (s : ClientState)
    (h1 : cu.type ≠ "created") (h2 : cu.type ≠ "newMessage") :
    handleChatUpdate username cu s =
      Except.error ("Invalid chat update type: " ++ cu.type) := by
  have e1 := beq_eq_false_iff_ne.mpr h1
  have e2 := beq_eq_false_iff_ne.mpr h2
  unfold handleChatUpdate
  simp only [e1, e2]
  simp

/-- Witness for C8 at a concrete input. -/
theorem handleChatUpdate_invalid_type_throws_wit :
    handleChatUpdate "alice" (ChatUpdatePayload.mk chatEC "bogus") emptyClient =
      Except.error ("Invalid chat update type: " ++ "bogus") :=
  handleChatUpdate_invalid_type_throws "alice"
    (ChatUpdatePayload.mk chatEC "bogus") emptyClient (by decide) (by decide)

/-- C9: on a `created` event the handler succeeds, never changes the
selection, appends the event's chat exactly when the current user is among
its participants and no chat with the same id is known, and is idempotent:
handling the same event again changes nothing. -/
theorem handleChatUpdate_created_merge (username : String)
    (cu : ChatUpdatePayload) (s : ClientState) (h : cu.type = "created") :
    ∃ s', handleChatUpdate username cu s = Except.ok s' ∧
      s'.selectedChat = s.selectedChat ∧
      s'.chats = (if cu.chat.participants.contains username &&
                      !(s.chats.any fun chat => chat._id == cu.chat._id)
                  then s.chats ++ [cu.chat] else s.chats) ∧
      handleChatUpdate username cu s' = Except.ok s' := by
  unfold handleChatUpdate
  rw [h]
  simp only [beq_self_eq_true, if_true]
  by_cases hcm : username ∈ cu.chat.participants
  · by_cases hae : ∃ x ∈ s.chats, x._id = cu.chat._id
    · have hnot : ¬ ∀ x ∈ s.chats, ¬x._id = cu.chat._id := by
        obtain ⟨x, hx, hid⟩ := hae
        exact fun hall => absurd hid (hall x hx)
      refine ⟨s, by simp [hcm, hae], rfl, ?_, by simp [hcm, hae]⟩
      simp [hcm, hae]
      rw [if_neg hnot]
    · have han : ∀ x ∈ s.chats, ¬x._id = cu.chat._id := by
        push_neg at hae; exact hae
      refine ⟨{ s with chats := s.chats ++ [cu.chat] }, by simp [hcm, hae], rfl,
        ?_, by simp [hcm]⟩
      simp [hcm, hae]
      rw [if_pos han]
  · exact ⟨s, by simp [hcm], rfl, by simp [hcm], by simp [hcm]⟩

/-- Witness for C9 at a concrete input. -/
theorem handleChatUpdate_created_merge_wit :
    ∃ s', handleChatUpdate "alice" (ChatUpdatePayload.mk chatEC "created")
        emptyClient = Except.ok s' ∧
      s'.selectedChat = emptyClient.selectedChat ∧
      s'.chats = (if chatEC.participants.contains "alice" &&
                      !(emptyClient.chats.any fun chat => chat._id == chatEC._id)
                  then emptyClient.chats ++ [chatEC] else emptyClient.chats) ∧
      handleChatUpdate "alice" (ChatUpdatePayload.mk chatEC "created") s' =
        Except.ok s' :=
  handleChatUpdate_created_merge "alice" (ChatUpdatePayload.mk chatEC "created")
    emptyClient rfl

/-- C10: a `getChatsByUser` request whose username parameter is falsy
(empty or missing) is answered 400 before any storage access — the response
does not depend on the store at all. -/
theorem getChatsByUserRoute_empty_username (username : String) (db db' : DB)
    (h : username = "") :
    getChatsByUserRoute username db =
      { status := 400, body := ResponseBody.text "Invalid body" } ∧
    getChatsByUserRoute username db = getChatsByUserRoute username db' := by
  subst h
  exact ⟨rfl, rfl⟩

/-- Witness for C10 at a concrete input. -/
theorem getChatsByUserRoute_empty_username_wit :
    getChatsByUserRoute "" dbA =
      { status := 400, body := ResponseBody.text "Invalid body" } ∧
    getChatsByUserRoute "" dbA = getChatsByUserRoute "" emptyDB :=
  getChatsByUserRoute_empty_username "" dbA emptyDB rfl

end ChatApp
